import Mathlib

/-!
Shallow embedding of the matching and chat core of the university dating app
(Express + Mongoose).  Users live in a `List User` standing for the Mongo
`users` collection; conversations in a `List Chat`.  Each route handler is
translated into a pure function on these lists; `Except Err` stands for the
HTTP error responses.  Real-number geometry (the haversine helper and the
geo filter) is embedded over `ℝ`.
-/

namespace DatingApp

/-- `gender` enum of the user schema: male / female / non-binary. -/
inductive Gender
  | male
  | female
  | nonbinary
deriving DecidableEq, Repr

/-- `interestedIn` enum of the user schema: male / female / both. -/
inductive Interest
  | male
  | female
  | both
deriving DecidableEq, Repr

/-- Typed stand-ins for the HTTP error responses of the routes. -/
inductive Err
  | notFound
  | profileIncomplete
  | alreadyLiked
  | alreadyDisliked
  | notMatched
  | forbidden
deriving DecidableEq, Repr

/-- A photo subdocument: url and isMain flag. -/
structure Photo where
  url : String
  isMain : Bool
deriving DecidableEq, Repr

/-- A user document.  `lon`/`lat` are `location.coordinates[0]`/`[1]`
(GeoJSON order: longitude first), kept as rationals so that the sentinel
test `coordinates[i] !== 0` stays decidable; they are coerced to `ℝ` for
distance computation.  `ageMin`/`ageMax` are `preferences.ageRange`,
`maxDistance` is `preferences.maxDistance` in km. -/
structure User where
  id : Nat
  firstName : String
  lastName : String
  age : Nat
  gender : Gender
  interestedIn : Interest
  university : String
  bio : String
  photos : List Photo
  isEmailVerified : Bool
  profileCompleted : Bool
  lon : ℚ
  lat : ℚ
  ageMin : Nat
  ageMax : Nat
  maxDistance : ℚ
  lastActive : Nat
  likedUsers : List Nat
  dislikedUsers : List Nat
  «matches» : List Nat
deriving DecidableEq, Repr

/-- `userSchema.methods.isProfileComplete`: truthiness of firstName,
lastName, age, gender, interestedIn, university, bio and a nonempty photo
list.  `gender` and `interestedIn` are closed enums, hence always truthy;
numeric truthiness of `age` is `age ≠ 0`. -/
def isProfileComplete (u : User) : Bool :=
  (u.firstName != "") && (u.lastName != "") && (u.age != 0) &&
    (u.university != "") && (u.bio != "") && (u.photos.length != 0)

/-- `User.findById`. -/
def findById (db : List User) (i : Nat) : Option User :=
  db.find? (fun u => u.id == i)

/-- `user.save()`: write back a (possibly modified) user document. -/
def updateUser (db : List User) (u : User) : List User :=
  db.map (fun x => if x.id == u.id then u else x)

/-- `router.post('/like/:userId')`: load both users (404 if either is
absent), reject a repeated like, append the target to the actor's
`likedUsers`, and on reciprocity append each user to the other's `matches`
(saving the target first, then the actor).  Returns the new collection and
the `isMatch` flag. -/
def like (db : List User) (actorId targetId : Nat) :
    Except Err (List User × Bool) :=
  match findById db actorId, findById db targetId with
  | some a, some t =>
    if a.likedUsers.contains targetId then
      .error .alreadyLiked
    else
      let a1 := { a with likedUsers := a.likedUsers ++ [targetId] }
      if t.likedUsers.contains actorId then
        let a2 := { a1 with «matches» := a1.«matches» ++ [targetId] }
        let t2 := { t with «matches» := t.«matches» ++ [actorId] }
        .ok (updateUser (updateUser db t2) a2, true)
      else
        .ok (updateUser db a1, false)
  | _, _ => .error .notFound

/-- `router.post('/dislike/:userId')`: only the actor is loaded; the
target id is appended to `dislikedUsers` unless already present.  The
target user itself is never looked up. -/
def dislike (db : List User) (actorId targetId : Nat) :
    Except Err (List User) :=
  match findById db actorId with
  | some a =>
    if a.dislikedUsers.contains targetId then
      .error .alreadyDisliked
    else
      .ok (updateUser db { a with dislikedUsers := a.dislikedUsers ++ [targetId] })
  | none => .error .notFound

/-- `router.delete('/unmatch/:userId')`: load both users (404 if either is
absent); filter the counterpart id out of both `matches` arrays and both
`likedUsers` arrays, then save both. -/
def unmatch (db : List User) (actorId targetId : Nat) :
    Except Err (List User) :=
  match findById db actorId, findById db targetId with
  | some a, some t =>
    let a1 := { a with
      «matches» := a.«matches».filter (fun i => i != targetId),
      likedUsers := a.likedUsers.filter (fun i => i != targetId) }
    let t1 := { t with
      «matches» := t.«matches».filter (fun i => i != actorId),
      likedUsers := t.likedUsers.filter (fun i => i != actorId) }
    .ok (updateUser (updateUser db a1) t1)
  | _, _ => .error .notFound

theorem updateUser_comp_eq (u : User) (i : Nat) :
    ((fun x : User => x.id == i) ∘ fun x => if x.id == u.id then u else x) =
      fun x : User => x.id == i := by
  funext x
  by_cases hx : x.id = u.id
  · simp [Function.comp, hx]
  · simp [Function.comp, hx]

theorem findById_updateUser_self (db : List User) (u : User)
    (h : ∃ x ∈ db, x.id = u.id) :
    findById (updateUser db u) u.id = some u := by
  unfold findById updateUser
  rw [List.find?_map, updateUser_comp_eq]
  have hsome : (db.find? (fun x => x.id == u.id)).isSome := by
    rw [List.find?_isSome]
    rcases h with ⟨x, hx, hid⟩
    exact ⟨x, hx, by simpa [beq_iff_eq] using hid⟩
  cases hfind : db.find? (fun x => x.id == u.id) with
  | none => rw [hfind] at hsome; simp at hsome
  | some e =>
    have he : e.id = u.id := by simpa [beq_iff_eq] using List.find?_some hfind
    simp [he]

theorem findById_updateUser_self' (db : List User) (u : User) (i : Nat)
    (hui : u.id = i) (h : ∃ x ∈ db, x.id = i) :
    findById (updateUser db u) i = some u := by
  subst hui
  exact findById_updateUser_self db u h

theorem findById_updateUser_other (db : List User) (u : User) (i : Nat)
    (h : i ≠ u.id) :
    findById (updateUser db u) i = findById db i := by
  unfold findById updateUser
  rw [List.find?_map]
  have hpf : ((fun x : User => x.id == i) ∘ fun x => if x.id == u.id then u else x) =
      fun x : User => x.id == i := by
    funext x
    by_cases hx : x.id = u.id
    · have h1 : (u.id == i) = false := by simp [beq_iff_eq]; omega
      simp [Function.comp, hx, h1]
    · simp [Function.comp, hx]
  rw [hpf]
  cases hfind : db.find? (fun x : User => x.id == i) with
  | none => simp
  | some e =>
    have he : e.id = i := by simpa [beq_iff_eq] using List.find?_some hfind
    have hne : ¬ (e.id = u.id) := by omega
    simp [hne]

theorem mem_of_findById {db : List User} {i : Nat} {u : User}
    (h : findById db i = some u) : u ∈ db ∧ u.id = i := by
  unfold findById at h
  have hm := List.mem_of_find?_eq_some h
  have hp := List.find?_some h
  exact ⟨hm, by simpa [beq_iff_eq] using hp⟩

/-- A `readBy` entry of a message subdocument. -/
structure ReadEntry where
  user : Nat
  readAt : Nat
deriving DecidableEq, Repr

/-- A message subdocument of a chat.  `createdAt` is the mongoose
timestamp (modelled as a `Nat` instant). -/
structure Msg where
  id : Nat
  sender : Nat
  content : String
  createdAt : Nat
  readBy : List ReadEntry
deriving DecidableEq, Repr

/-- The denormalized `lastMessage` pointer of a chat. -/
structure LastMsg where
  content : String
  sender : Nat
  timestamp : Nat
deriving DecidableEq, Repr

/-- A chat document. -/
structure Chat where
  participants : List Nat
  messages : List Msg
  lastMessage : Option LastMsg
deriving DecidableEq, Repr

/-- The `$all: [a, b]` participant test of the chat lookup. -/
def chatFor (c : Chat) (a b : Nat) : Bool :=
  c.participants.contains a && c.participants.contains b

/-- `router.get('/with/:userId')`: load both users (404 if either absent);
403 `NotMatched` unless the target id is in the actor's `matches`; find an
existing chat whose participants contain both ids (`$all`); otherwise
create and save a new chat with exactly these two participants (the
`pre('save')` hook accepts it since the participant list has length 2).
Returns the chat together with the updated chat collection. -/
def getOrCreate (users : List User) (chats : List Chat) (actorId targetId : Nat) :
    Except Err (Chat × List Chat) :=
  match findById users actorId, findById users targetId with
  | some a, some _ =>
    if a.«matches».contains targetId then
      match chats.find? (fun c => chatFor c actorId targetId) with
      | some c => .ok (c, chats)
      | none =>
        let c : Chat := ⟨[actorId, targetId], [], none⟩
        .ok (c, chats ++ [c])
    else .error .notMatched
  | _, _ => .error .notFound

/-- Descending comparison used by `messages.sort((a, b) => b.createdAt - a.createdAt)`. -/
def newerFirst (a b : Msg) : Prop := b.createdAt ≤ a.createdAt

instance : DecidableRel newerFirst := fun a b =>
  inferInstanceAs (Decidable (b.createdAt ≤ a.createdAt))

instance : IsTotal Msg newerFirst :=
  ⟨fun a b => Nat.le_total b.createdAt a.createdAt⟩

instance : IsTrans Msg newerFirst :=
  ⟨fun _ _ _ hab hbc => le_trans hbc hab⟩

/-- `router.get('/:chatId/messages')`: 403 unless the requester is a
participant; sort messages newest first (the JS sort is stable, embedded
as a stable insertion sort), slice `[skip, skip+limit)`, reverse, and
report `hasMore` as `total > skip + limit`. -/
def listMessages (chat : Chat) (requester page limit : Nat) :
    Except Err (List Msg × Bool) :=
  if chat.participants.contains requester then
    let skip := (page - 1) * limit
    let sorted := List.insertionSort newerFirst chat.messages
    .ok (((sorted.drop skip).take limit).reverse,
      decide (chat.messages.length > skip + limit))
  else .error .forbidden

/-- The per-message body of the read loop: if no `readBy` entry of the
requester exists, push one stamped `now`. -/
def markMsgRead (requester now : Nat) (m : Msg) : Msg :=
  if m.readBy.any (fun r => r.user == requester) then m
  else { m with readBy := m.readBy ++ [⟨requester, now⟩] }

/-- `router.put('/:chatId/read')`: 403 unless the requester is a
participant; to every message lacking a `readBy` entry of the requester,
append one stamped `now`. -/
def markRead (chat : Chat) (requester now : Nat) : Except Err Chat :=
  if chat.participants.contains requester then
    .ok { chat with messages := chat.messages.map (markMsgRead requester now) }
  else .error .forbidden

/-- `router.delete('/:chatId/messages/:messageId')`: 403 unless the
requester is a participant; 404 unless the message id exists; 403 unless
the requester is its sender; remove the message (`messages.pull`) and set
`lastMessage` from the new final message of the array, or clear it when
none remain. -/
def deleteMessage (chat : Chat) (messageId requester : Nat) : Except Err Chat :=
  if chat.participants.contains requester then
    match chat.messages.find? (fun m => m.id == messageId) with
    | none => .error .notFound
    | some m =>
      if m.sender == requester then
        let remaining := chat.messages.filter (fun x => x.id != messageId)
        let lm : Option LastMsg :=
          match remaining.getLast? with
          | some l => some ⟨l.content, l.sender, l.createdAt⟩
          | none => none
        .ok { chat with messages := remaining, lastMessage := lm }
      else .error .forbidden
  else .error .forbidden

noncomputable section

open Real

/-- JS `Math.atan2(y, x)`. -/
def atan2 (y x : ℝ) : ℝ :=
  if 0 < x then Real.arctan (y / x)
  else if x = 0 then
    (if 0 < y then Real.pi / 2 else if y < 0 then -(Real.pi / 2) else 0)
  else
    (if 0 ≤ y then Real.arctan (y / x) + Real.pi else Real.arctan (y / x) - Real.pi)

/-- `deg2rad(deg) = deg * (Math.PI / 180)`. -/
def deg2rad (d : ℝ) : ℝ := d * (Real.pi / 180)

/-- The intermediate `a` of `calculateDistance`:
`sin(dLat/2)² + cos(lat1)·cos(lat2)·sin(dLon/2)²` in radians. -/
def haversineA (lat1 lon1 lat2 lon2 : ℝ) : ℝ :=
  Real.sin (deg2rad (lat2 - lat1) / 2) * Real.sin (deg2rad (lat2 - lat1) / 2) +
    Real.cos (deg2rad lat1) * Real.cos (deg2rad lat2) *
      (Real.sin (deg2rad (lon2 - lon1) / 2) * Real.sin (deg2rad (lon2 - lon1) / 2))

/-- `calculateDistance(lat1, lon1, lat2, lon2)`: haversine distance in km
on a sphere of radius R = 6371 km, `c = 2·atan2(√a, √(1−a))`, `d = R·c`. -/
def calculateDistance (lat1 lon1 lat2 lon2 : ℝ) : ℝ :=
  6371 * (2 * atan2 (Real.sqrt (haversineA lat1 lon1 lat2 lon2))
    (Real.sqrt (1 - haversineA lat1 lon1 lat2 lon2)))

/-- Distance in km between two users' stored coordinates
(`coordinates = [lon, lat]`, so latitude is index 1). -/
def distKm (u t : User) : ℝ :=
  calculateDistance (u.lat : ℝ) (u.lon : ℝ) (t.lat : ℝ) (t.lon : ℝ)

end

/-- The geo filter is added to the query exactly when both stored
coordinates of the acting user differ from the `(0,0)` sentinel. -/
def geoActive (u : User) : Bool := (u.lon != 0) && (u.lat != 0)

/-- `matchCriteria.gender = currentUser.interestedIn`: a candidate's
gender value equals the actor's interestedIn value. -/
def genderMatchesInterest (g : Gender) (i : Interest) : Bool :=
  match g, i with
  | .male, .male => true
  | .female, .female => true
  | _, _ => false

/-- `$or: [{interestedIn: currentUser.gender}, {interestedIn: 'both'}]`,
first disjunct: a candidate's interestedIn value equals the actor's
gender value. -/
def interestMatchesGender (i : Interest) (g : Gender) : Bool :=
  match i, g with
  | .male, .male => true
  | .female, .female => true
  | _, _ => false

/-- The decidable part of `matchCriteria` for candidate `t` of user `u`:
not self, not previously liked/disliked, same university, verified,
profile-complete (stored flag), age inside the preferred range, gender
preference and the mutual-interest `$or`. -/
def basePass (u t : User) : Bool :=
  (t.id != u.id) &&
  (!((u.likedUsers ++ u.dislikedUsers).contains t.id)) &&
  (t.university == u.university) &&
  t.isEmailVerified &&
  t.profileCompleted &&
  (u.ageMin ≤ t.age) &&
  (t.age ≤ u.ageMax) &&
  (if u.interestedIn == .both then true
   else genderMatchesInterest t.gender u.interestedIn) &&
  (interestMatchesGender t.interestedIn u.gender || t.interestedIn == .both)

/-- Modelled from the spec: the `$near`/`$maxDistance` geo query runs
inside MongoDB, not in this repository's sources; the spec fixes its
semantics as "within maxDistance kilometers using great-circle (haversine)
distance on a sphere of radius 6371 km", filtering "unrounded meters
(distance_km × 1000) against maxDistance" (× 1000 as in the route's
`maxDistance * 1000`).  A candidate passes when the geo filter is
inactive, or when its haversine distance from the actor in meters is at
most `maxDistance * 1000`. -/
def passes (u t : User) : Prop :=
  basePass u t = true ∧
    (geoActive u = true → distKm u t * 1000 ≤ (u.maxDistance : ℝ) * 1000)

/-- `l'` is the sublist of `l` keeping exactly the elements satisfying `P`
(the `Prop`-level mirror of `List.filter`, needed because the geo
predicate ranges over `ℝ`). -/
inductive FilterRel (P : User → Prop) : List User → List User → Prop
  | nil : FilterRel P [] []
  | keep {x l l'} : P x → FilterRel P l l' → FilterRel P (x :: l) (x :: l')
  | drop {x l l'} : ¬ P x → FilterRel P l l' → FilterRel P (x :: l) l'

/-- Descending comparison of `sort({ lastActive: -1 })`. -/
def moreRecentlyActive (a b : User) : Prop := b.lastActive ≤ a.lastActive

instance : DecidableRel moreRecentlyActive := fun a b =>
  inferInstanceAs (Decidable (b.lastActive ≤ a.lastActive))

/-- `router.get('/potential')` as a relation between the user collection,
the acting user and the response: `ProfileIncomplete` unless
`isProfileComplete()`; otherwise the result is the `matchCriteria`-filtered
collection sorted most-recently-active first and capped at 10. -/
def getCandidatesRel (db : List User) (u : User)
    (res : Except Err (List User)) : Prop :=
  if isProfileComplete u then
    ∃ filtered, FilterRel (passes u) db filtered ∧
      res = .ok ((List.insertionSort moreRecentlyActive filtered).take 10)
  else res = .error .profileIncomplete

theorem FilterRel.mem {P : User → Prop} :
    ∀ {l l' : List User}, FilterRel P l l' → ∀ {x}, x ∈ l' → x ∈ l ∧ P x := by
  intro l l' h
  induction h with
  | nil => intro x hx; simp at hx
  | keep hp _ ih =>
    intro x hx
    rcases List.mem_cons.mp hx with rfl | hx'
    · exact ⟨List.mem_cons_self _ _, hp⟩
    · rcases ih hx' with ⟨hm, hP⟩
      exact ⟨List.mem_cons_of_mem _ hm, hP⟩
  | drop _ _ ih =>
    intro x hx
    rcases ih hx with ⟨hm, hP⟩
    exact ⟨List.mem_cons_of_mem _ hm, hP⟩

theorem FilterRel.of_filter {P : User → Prop} {p : User → Bool}
    (hpc : ∀ x, P x ↔ p x = true) :
    ∀ l : List User, FilterRel P l (l.filter p) := by
  intro l
  induction l with
  | nil => exact FilterRel.nil
  | cons x xs ih =>
    by_cases hx : p x = true
    · rw [List.filter_cons_of_pos hx]
      exact FilterRel.keep ((hpc x).mpr hx) ih
    · rw [List.filter_cons_of_neg (by simpa using hx)]
      exact FilterRel.drop (fun hP => hx ((hpc x).mp hP)) ih

/-- `currentUser.likedUsers.push(userId)`. -/
def pushLiked (u : User) (i : Nat) : User :=
  { u with likedUsers := u.likedUsers ++ [i] }

/-- `user.matches.push(id)`. -/
def pushMatch (u : User) (i : Nat) : User :=
  { u with «matches» := u.«matches» ++ [i] }

@[simp] theorem pushLiked_id (u : User) (i : Nat) : (pushLiked u i).id = u.id := rfl

@[simp] theorem pushLiked_likedUsers (u : User) (i : Nat) :
    (pushLiked u i).likedUsers = u.likedUsers ++ [i] := rfl

@[simp] theorem pushLiked_matches (u : User) (i : Nat) :
    (pushLiked u i).«matches» = u.«matches» := rfl

@[simp] theorem pushMatch_id (u : User) (i : Nat) : (pushMatch u i).id = u.id := rfl

@[simp] theorem pushMatch_likedUsers (u : User) (i : Nat) :
    (pushMatch u i).likedUsers = u.likedUsers := rfl

@[simp] theorem pushMatch_matches (u : User) (i : Nat) :
    (pushMatch u i).«matches» = u.«matches» ++ [i] := rfl

theorem like_not_mutual (db : List User) (A B : User) (aId bId : Nat)
    (hA : findById db aId = some A) (hB : findById db bId = some B)
    (hAl : bId ∉ A.likedUsers) (hBl : aId ∉ B.likedUsers) :
    like db aId bId = .ok (updateUser db (pushLiked A bId), false) := by
  simp [like, pushLiked, hA, hB, hAl, hBl]

theorem like_mutual (db : List User) (A B : User) (aId bId : Nat)
    (hA : findById db aId = some A) (hB : findById db bId = some B)
    (hAl : bId ∉ A.likedUsers) (hBm : aId ∈ B.likedUsers) :
    like db aId bId =
      .ok (updateUser (updateUser db (pushMatch B aId))
        (pushMatch (pushLiked A bId) bId), true) := by
  simp [like, pushLiked, pushMatch, hA, hB, hAl, hBm]

theorem like_like_aux (db : List User) (A B : User) (aId bId : Nat)
    (hne : aId ≠ bId)
    (hA : findById db aId = some A) (hB : findById db bId = some B)
    (hAl : bId ∉ A.likedUsers) (hBl : aId ∉ B.likedUsers) :
    ∃ db1 db2 A' B',
      like db aId bId = .ok (db1, false) ∧
      like db1 bId aId = .ok (db2, true) ∧
      findById db2 aId = some A' ∧ findById db2 bId = some B' ∧
      A'.«matches» = A.«matches» ++ [bId] ∧
      B'.«matches» = B.«matches» ++ [aId] ∧
      A'.likedUsers = A.likedUsers ++ [bId] ∧
      B'.likedUsers = B.likedUsers ++ [aId] := by
  have hAid : A.id = aId := (mem_of_findById hA).2
  have hBid : B.id = bId := (mem_of_findById hB).2
  have hAmem : A ∈ db := (mem_of_findById hA).1
  have h1 := like_not_mutual db A B aId bId hA hB hAl hBl
  have hfA1 : findById (updateUser db (pushLiked A bId)) aId = some (pushLiked A bId) :=
    findById_updateUser_self' _ _ _ (by simpa using hAid) ⟨A, hAmem, hAid⟩
  have hfB1 : findById (updateUser db (pushLiked A bId)) bId = some B := by
    rw [findById_updateUser_other]
    · exact hB
    · simp; omega
  have h2 := like_mutual (updateUser db (pushLiked A bId))
    B (pushLiked A bId) bId aId hfB1 hfA1 hBl (by simp)
  have hfA2 : findById
      (updateUser (updateUser (updateUser db (pushLiked A bId))
        (pushMatch (pushLiked A bId) bId)) (pushMatch (pushLiked B aId) aId)) aId
      = some (pushMatch (pushLiked A bId) bId) := by
    rw [findById_updateUser_other]
    · exact findById_updateUser_self' _ _ _ (by simpa using hAid)
        ⟨pushLiked A bId, (mem_of_findById hfA1).1, by simpa using hAid⟩
    · simp; omega
  have hfB1' : findById
      (updateUser (updateUser db (pushLiked A bId)) (pushMatch (pushLiked A bId) bId)) bId
      = some B := by
    rw [findById_updateUser_other]
    · exact hfB1
    · simp; omega
  have hfB2 : findById
      (updateUser (updateUser (updateUser db (pushLiked A bId))
        (pushMatch (pushLiked A bId) bId)) (pushMatch (pushLiked B aId) aId)) bId
      = some (pushMatch (pushLiked B aId) aId) :=
    findById_updateUser_self' _ _ _ (by simpa using hBid)
      ⟨B, (mem_of_findById hfB1').1, hBid⟩
  exact ⟨_, _, _, _, h1, h2, hfA2, hfB2, by simp, by simp, by simp, by simp⟩

/-- `user.matches/likedUsers.filter(id => id.toString() !== otherId)` of the
unmatch route, applied to one side. -/
def purge (u : User) (i : Nat) : User :=
  { u with «matches» := u.«matches».filter (fun x => x != i),
           likedUsers := u.likedUsers.filter (fun x => x != i) }

@[simp] theorem purge_id (u : User) (i : Nat) : (purge u i).id = u.id := rfl

@[simp] theorem purge_matches (u : User) (i : Nat) :
    (purge u i).«matches» = u.«matches».filter (fun x => x != i) := rfl

@[simp] theorem purge_likedUsers (u : User) (i : Nat) :
    (purge u i).likedUsers = u.likedUsers.filter (fun x => x != i) := rfl

theorem unmatch_eq (db : List User) (A B : User) (aId bId : Nat)
    (hA : findById db aId = some A) (hB : findById db bId = some B) :
    unmatch db aId bId = .ok (updateUser (updateUser db (purge A bId)) (purge B aId)) := by
  simp [unmatch, purge, hA, hB]

/-- `dislikedUsers.push(userId)`. -/
def pushDisliked (u : User) (i : Nat) : User :=
  { u with dislikedUsers := u.dislikedUsers ++ [i] }

/-- C1: for existing users A and B in a state where neither has yet liked
or matched the other, applying like(A,B) and like(B,A) sequentially in
either order ends with B ∈ A.matches iff A ∈ B.matches, each recorded
exactly once (no duplicate match entries), and it is the second like that
reports the match and performs the symmetric write. -/
theorem c1_mutual_like_symmetric (db : List User) (A B : User) (aId bId : Nat)
    (hne : aId ≠ bId)
    (hA : findById db aId = some A) (hB : findById db bId = some B)
    (hAl : bId ∉ A.likedUsers) (hBl : aId ∉ B.likedUsers)
    (hAm : bId ∉ A.«matches») (hBm : aId ∉ B.«matches») :
    (∃ db1 db2 A' B',
      like db aId bId = .ok (db1, false) ∧
      like db1 bId aId = .ok (db2, true) ∧
      findById db2 aId = some A' ∧ findById db2 bId = some B' ∧
      ((bId ∈ A'.«matches») ↔ (aId ∈ B'.«matches»)) ∧
      A'.«matches».count bId = 1 ∧ B'.«matches».count aId = 1) ∧
    (∃ db1 db2 A' B',
      like db bId aId = .ok (db1, false) ∧
      like db1 aId bId = .ok (db2, true) ∧
      findById db2 aId = some A' ∧ findById db2 bId = some B' ∧
      ((bId ∈ A'.«matches») ↔ (aId ∈ B'.«matches»)) ∧
      A'.«matches».count bId = 1 ∧ B'.«matches».count aId = 1) := by
  constructor
  · obtain ⟨db1, db2, A', B', h1, h2, hfA, hfB, hma, hmb, _, _⟩ :=
      like_like_aux db A B aId bId hne hA hB hAl hBl
    refine ⟨db1, db2, A', B', h1, h2, hfA, hfB, ?_, ?_, ?_⟩
    · rw [hma, hmb]; simp
    · rw [hma]; simp [List.count_append, List.count_eq_zero.mpr hAm]
    · rw [hmb]; simp [List.count_append, List.count_eq_zero.mpr hBm]
  · obtain ⟨db1, db2, Bp, Ap, h1, h2, hfB, hfA, hmb, hma, _, _⟩ :=
      like_like_aux db B A bId aId (Ne.symm hne) hB hA hBl hAl
    refine ⟨db1, db2, Ap, Bp, h1, h2, hfA, hfB, ?_, ?_, ?_⟩
    · rw [hma, hmb]; simp
    · rw [hma]; simp [List.count_append, List.count_eq_zero.mpr hAm]
    · rw [hmb]; simp [List.count_append, List.count_eq_zero.mpr hBm]

/-- C6: for existing users A and B, unmatch(A,B) removes each from the
other's matches and purges each from the other's likedUsers, after which
like(A,B) followed by like(B,A) succeeds and re-establishes a mutual
match. -/
theorem c6_unmatch_then_relike (db : List User) (A B : User) (aId bId : Nat)
    (hne : aId ≠ bId)
    (hA : findById db aId = some A) (hB : findById db bId = some B) :
    ∃ db1 A1 B1,
      unmatch db aId bId = .ok db1 ∧
      findById db1 aId = some A1 ∧ findById db1 bId = some B1 ∧
      bId ∉ A1.«matches» ∧ aId ∉ B1.«matches» ∧
      bId ∉ A1.likedUsers ∧ aId ∉ B1.likedUsers ∧
      ∃ db2 db3 A2 B2,
        like db1 aId bId = .ok (db2, false) ∧
        like db2 bId aId = .ok (db3, true) ∧
        findById db3 aId = some A2 ∧ findById db3 bId = some B2 ∧
        bId ∈ A2.«matches» ∧ aId ∈ B2.«matches» := by
  have hAid : A.id = aId := (mem_of_findById hA).2
  have hBid : B.id = bId := (mem_of_findById hB).2
  have hAmem : A ∈ db := (mem_of_findById hA).1
  have h0 := unmatch_eq db A B aId bId hA hB
  have hfA1mid : findById (updateUser db (purge A bId)) aId = some (purge A bId) :=
    findById_updateUser_self' _ _ _ (by simpa using hAid) ⟨A, hAmem, hAid⟩
  have hfA1 : findById (updateUser (updateUser db (purge A bId)) (purge B aId)) aId
      = some (purge A bId) := by
    rw [findById_updateUser_other]
    · exact hfA1mid
    · simp; omega
  have hfB1mid : findById (updateUser db (purge A bId)) bId = some B := by
    rw [findById_updateUser_other]
    · exact hB
    · simp; omega
  have hfB1 : findById (updateUser (updateUser db (purge A bId)) (purge B aId)) bId
      = some (purge B aId) :=
    findById_updateUser_self' _ _ _ (by simpa using hBid)
      ⟨B, (mem_of_findById hfB1mid).1, hBid⟩
  refine ⟨_, purge A bId, purge B aId, h0, hfA1, hfB1,
    by simp, by simp, by simp, by simp, ?_⟩
  obtain ⟨db2, db3, A2, B2, h1, h2, hfA2, hfB2, hma, hmb, _, _⟩ :=
    like_like_aux _ (purge A bId) (purge B aId) aId bId hne hfA1 hfB1
      (by simp) (by simp)
  exact ⟨db2, db3, A2, B2, h1, h2, hfA2, hfB2, by simp [hma], by simp [hmb]⟩

/-- C10: dislike only requires the actor to exist: for an existing actor
and a target id not yet disliked, the dislike succeeds and appends the
target id to the actor's dislikedUsers even if no such user exists; by
contrast, like fails with NotFound when the target is absent. -/
theorem c10_dislike_checks_only_actor (db : List User) (a : User)
    (actorId targetId : Nat)
    (ha : findById db actorId = some a) (hnd : targetId ∉ a.dislikedUsers) :
    dislike db actorId targetId = .ok (updateUser db (pushDisliked a targetId)) ∧
    (pushDisliked a targetId).dislikedUsers = a.dislikedUsers ++ [targetId] ∧
    (findById db targetId = none → like db actorId targetId = .error .notFound) := by
  refine ⟨?_, rfl, ?_⟩
  · simp [dislike, pushDisliked, ha, hnd]
  · intro ht
    simp [like, ha, ht]

/-- A concrete complete, verified user for witness instantiations. -/
def mkUser (i : Nat) : User :=
  { id := i, firstName := "F", lastName := "L", age := 20, gender := .male,
    interestedIn := .female, university := "U", bio := "b",
    photos := [⟨"p", true⟩], isEmailVerified := true, profileCompleted := true,
    lon := 0, lat := 0, ageMin := 18, ageMax := 30, maxDistance := 50,
    lastActive := 0, likedUsers := [], dislikedUsers := [], «matches» := [] }

theorem c1_witness :
    (1 : Nat) ≠ 2 ∧
    ((∃ db1 db2 A' B',
      like [mkUser 1, mkUser 2] 1 2 = .ok (db1, false) ∧
      like db1 2 1 = .ok (db2, true) ∧
      findById db2 1 = some A' ∧ findById db2 2 = some B' ∧
      ((2 ∈ A'.«matches») ↔ (1 ∈ B'.«matches»)) ∧
      A'.«matches».count 2 = 1 ∧ B'.«matches».count 1 = 1) ∧
    (∃ db1 db2 A' B',
      like [mkUser 1, mkUser 2] 2 1 = .ok (db1, false) ∧
      like db1 1 2 = .ok (db2, true) ∧
      findById db2 1 = some A' ∧ findById db2 2 = some B' ∧
      ((2 ∈ A'.«matches») ↔ (1 ∈ B'.«matches»)) ∧
      A'.«matches».count 2 = 1 ∧ B'.«matches».count 1 = 1)) :=
  ⟨by decide, c1_mutual_like_symmetric [mkUser 1, mkUser 2] (mkUser 1) (mkUser 2) 1 2
    (by decide) rfl rfl (by decide) (by decide) (by decide) (by decide)⟩

theorem c6_witness :
    (1 : Nat) ≠ 2 ∧
    (∃ db1 A1 B1,
      unmatch [{ mkUser 1 with likedUsers := [2], «matches» := [2] },
               { mkUser 2 with likedUsers := [1], «matches» := [1] }] 1 2 = .ok db1 ∧
      findById db1 1 = some A1 ∧ findById db1 2 = some B1 ∧
      2 ∉ A1.«matches» ∧ 1 ∉ B1.«matches» ∧
      2 ∉ A1.likedUsers ∧ 1 ∉ B1.likedUsers ∧
      ∃ db2 db3 A2 B2,
        like db1 1 2 = .ok (db2, false) ∧
        like db2 2 1 = .ok (db3, true) ∧
        findById db3 1 = some A2 ∧ findById db3 2 = some B2 ∧
        2 ∈ A2.«matches» ∧ 1 ∈ B2.«matches») :=
  ⟨by decide, c6_unmatch_then_relike _
    { mkUser 1 with likedUsers := [2], «matches» := [2] }
    { mkUser 2 with likedUsers := [1], «matches» := [1] } 1 2
    (by decide) rfl rfl⟩

theorem c10_witness :
    (99 : Nat) ∉ (mkUser 1).dislikedUsers ∧
    (dislike [mkUser 1] 1 99 = .ok (updateUser [mkUser 1] (pushDisliked (mkUser 1) 99)) ∧
    (pushDisliked (mkUser 1) 99).dislikedUsers = (mkUser 1).dislikedUsers ++ [99] ∧
    (findById [mkUser 1] 99 = none → like [mkUser 1] 1 99 = .error .notFound)) :=
  ⟨by decide, c10_dislike_checks_only_actor [mkUser 1] (mkUser 1) 1 99 rfl (by decide)⟩

/-- At most one conversation per unordered participant pair. -/
def pairUnique (chats : List Chat) : Prop :=
  ∀ x y : Nat, x ≠ y → (chats.filter (fun c => chatFor c x y)).length ≤ 1

theorem chatFor_comm (c : Chat) (a b : Nat) : chatFor c a b = chatFor c b a := by
  simp [chatFor, Bool.and_comm]

theorem pairUnique_append (chats : List Chat) (aId bId : Nat)
    (hnone : ∀ c ∈ chats, chatFor c aId bId = false)
    (hpu : pairUnique chats) :
    pairUnique (chats ++ [⟨[aId, bId], [], none⟩]) := by
  intro x y hxy
  rw [List.filter_append]
  by_cases hnew : chatFor (⟨[aId, bId], [], none⟩ : Chat) x y = true
  · have h' := hnew
    simp [chatFor] at h'
    have hx : x = aId ∨ x = bId := h'.1
    have hy : y = aId ∨ y = bId := h'.2
    have hfilter : chats.filter (fun c => chatFor c x y) = [] := by
      rw [List.filter_eq_nil_iff]
      intro c hc
      rcases hx with rfl | rfl <;> rcases hy with rfl | rfl
      · exact absurd rfl hxy
      · simp [hnone c hc]
      · rw [chatFor_comm]
        simp [hnone c hc]
      · exact absurd rfl hxy
    rw [hfilter]
    simpa using List.length_filter_le (fun c => chatFor c x y)
      [(⟨[aId, bId], [], none⟩ : Chat)]
  · have hf : chatFor (⟨[aId, bId], [], none⟩ : Chat) x y = false := by
      simpa using hnew
    simp [hf]
    exact hpu x y hxy

/-- C2: getOrCreate fails with NotMatched unless the target is in the
actor's matches; for a matched pair it returns the first existing
conversation containing both participants, leaving the store unchanged,
and otherwise creates one with exactly these two participants, so the
at-most-one-conversation-per-unordered-pair invariant and the
exactly-two-participants invariant are preserved. -/
theorem c2_getOrCreate_identity (users : List User) (chats : List Chat)
    (A B : User) (aId bId : Nat)
    (hA : findById users aId = some A) (hB : findById users bId = some B)
    (hne : aId ≠ bId)
    (htwo : ∀ c ∈ chats, c.participants.length = 2)
    (hpu : pairUnique chats) :
    (bId ∉ A.«matches» → getOrCreate users chats aId bId = .error .notMatched) ∧
    (∀ c chats', getOrCreate users chats aId bId = .ok (c, chats') →
      bId ∈ A.«matches» ∧
      chatFor c aId bId = true ∧
      (∀ c0, chats.find? (fun x => chatFor x aId bId) = some c0 →
        c = c0 ∧ chats' = chats) ∧
      (∀ c' ∈ chats', c'.participants.length = 2) ∧
      pairUnique chats') := by
  constructor
  · intro hnm
    simp [getOrCreate, hA, hB, hnm]
  · intro c chats' hok
    by_cases hm : bId ∈ A.«matches»
    · refine ⟨hm, ?_⟩
      have hval : getOrCreate users chats aId bId =
          (match chats.find? (fun x => chatFor x aId bId) with
          | some c0 => .ok (c0, chats)
          | none => .ok ((⟨[aId, bId], [], none⟩ : Chat),
              chats ++ [⟨[aId, bId], [], none⟩])) := by
        simp [getOrCreate, hA, hB, hm]
      rw [hval] at hok
      cases hfind : chats.find? (fun x => chatFor x aId bId) with
      | some c0 =>
        rw [hfind] at hok
        have hok' : (Except.ok (c0, chats) : Except Err (Chat × List Chat))
            = .ok (c, chats') := hok
        cases hok'
        refine ⟨by simpa using List.find?_some hfind, ?_, htwo, hpu⟩
        intro c1 h1
        cases h1
        exact ⟨rfl, rfl⟩
      | none =>
        rw [hfind] at hok
        have hok' : (Except.ok ((⟨[aId, bId], [], none⟩ : Chat),
            chats ++ [⟨[aId, bId], [], none⟩]) : Except Err (Chat × List Chat))
            = .ok (c, chats') := hok
        cases hok'
        have hnone : ∀ c' ∈ chats, chatFor c' aId bId = false := by
          intro c' hc'
          have := List.find?_eq_none.mp hfind c' hc'
          simpa using this
        refine ⟨by simp [chatFor], ?_, ?_, pairUnique_append chats aId bId hnone hpu⟩
        · intro c1 h1
          cases h1
        · intro c' hc'
          rcases List.mem_append.mp hc' with h | h
          · exact htwo c' h
          · simp at h
            subst h
            rfl
    · have hval : getOrCreate users chats aId bId = .error .notMatched := by
        simp [getOrCreate, hA, hB, hm]
      rw [hval] at hok
      cases hok

theorem c2_witness :
    pairUnique [] ∧
    ((2 ∉ ({ mkUser 1 with likedUsers := [2], «matches» := [2] } : User).«matches» →
      getOrCreate [{ mkUser 1 with likedUsers := [2], «matches» := [2] },
        { mkUser 2 with likedUsers := [1], «matches» := [1] }] [] 1 2
        = .error .notMatched) ∧
     (∀ c chats',
      getOrCreate [{ mkUser 1 with likedUsers := [2], «matches» := [2] },
        { mkUser 2 with likedUsers := [1], «matches» := [1] }] [] 1 2
        = .ok (c, chats') →
      2 ∈ ({ mkUser 1 with likedUsers := [2], «matches» := [2] } : User).«matches» ∧
      chatFor c 1 2 = true ∧
      (∀ c0, ([] : List Chat).find? (fun x => chatFor x 1 2) = some c0 →
        c = c0 ∧ chats' = []) ∧
      (∀ c' ∈ chats', c'.participants.length = 2) ∧
      pairUnique chats')) :=
  ⟨by intro x y hxy; simp,
   c2_getOrCreate_identity _ []
    { mkUser 1 with likedUsers := [2], «matches» := [2] }
    { mkUser 2 with likedUsers := [1], «matches» := [1] } 1 2 rfl rfl (by decide)
    (by simp) (by intro x y hxy; simp)⟩

/-- Number of `readBy` entries of `requester` on a message. -/
def readCount (m : Msg) (requester : Nat) : Nat :=
  (m.readBy.filter (fun r => r.user == requester)).length

theorem readCount_markMsgRead (m : Msg) (requester now : Nat)
    (h : readCount m requester ≤ 1) :
    readCount (markMsgRead requester now m) requester = 1 := by
  unfold markMsgRead
  cases hany : m.readBy.any (fun r => r.user == requester) with
  | true =>
    simp only [if_true]
    obtain ⟨x, hx, hpx⟩ := List.any_eq_true.mp hany
    have hxmem : x ∈ m.readBy.filter (fun r => r.user == requester) :=
      List.mem_filter.mpr ⟨hx, hpx⟩
    have hpos := List.length_pos_of_mem hxmem
    unfold readCount at h ⊢
    omega
  | false =>
    simp only [hany, Bool.false_eq_true, if_false]
    have hnil : m.readBy.filter (fun r => r.user == requester) = [] := by
      rw [List.filter_eq_nil_iff]
      intro r hr
      have := List.any_eq_false.mp hany r hr
      simpa using this
    unfold readCount
    simp [List.filter_append, hnil]

theorem markMsgRead_noop (m : Msg) (requester now : Nat)
    (h : 1 ≤ readCount m requester) :
    markMsgRead requester now m = m := by
  unfold readCount at h
  have hne : m.readBy.filter (fun r => r.user == requester) ≠ [] := by
    intro hnil
    rw [hnil] at h
    simp at h
  obtain ⟨x, hx⟩ := List.exists_mem_of_ne_nil _ hne
  have hx' := List.mem_filter.mp hx
  have hany : m.readBy.any (fun r => r.user == requester) = true :=
    List.any_eq_true.mpr ⟨x, hx'.1, hx'.2⟩
  unfold markMsgRead
  simp [hany]

theorem map_eq_self_of_mem {α : Type} {f : α → α} :
    ∀ {l : List α}, (∀ x ∈ l, f x = x) → l.map f = l := by
  intro l
  induction l with
  | nil => intro _; rfl
  | cons x xs ih =>
    intro h
    simp only [List.map_cons]
    rw [h x (List.mem_cons_self x xs), ih (fun y hy => h y (List.mem_cons_of_mem x hy))]

/-- C9: markRead is idempotent: for a participant requester, on a chat
whose messages carry at most one readBy entry for that requester, one
invocation leaves every message with exactly one readBy entry for the
requester, and an immediately repeated invocation (at any later time)
returns the exact same state. -/
theorem c9_markRead_idempotent (chat : Chat) (requester now now2 : Nat)
    (hp : chat.participants.contains requester = true)
    (hwf : ∀ m ∈ chat.messages, readCount m requester ≤ 1) :
    ∃ chat1,
      markRead chat requester now = .ok chat1 ∧
      (∀ m ∈ chat1.messages, readCount m requester = 1) ∧
      markRead chat1 requester now2 = .ok chat1 := by
  have hpm : requester ∈ chat.participants := by simpa using hp
  refine ⟨{ chat with messages := chat.messages.map (markMsgRead requester now) },
    by simp [markRead, hpm], ?_, ?_⟩
  · intro m hm
    obtain ⟨m0, hm0, rfl⟩ := List.mem_map.mp hm
    exact readCount_markMsgRead m0 requester now (hwf m0 hm0)
  · have hmap : (chat.messages.map (markMsgRead requester now)).map
        (markMsgRead requester now2) = chat.messages.map (markMsgRead requester now) := by
      apply map_eq_self_of_mem
      intro m hm
      obtain ⟨m0, hm0, rfl⟩ := List.mem_map.mp hm
      apply markMsgRead_noop
      rw [readCount_markMsgRead m0 requester now (hwf m0 hm0)]
    simp [markRead, hpm, hmap]

theorem c9_witness :
    (([1, 2] : List Nat).contains 1 = true) ∧
    (∃ chat1,
      markRead ⟨[1, 2], [⟨1, 1, "hi", 0, [⟨1, 0⟩]⟩, ⟨2, 2, "yo", 1, []⟩], none⟩ 1 5
        = .ok chat1 ∧
      (∀ m ∈ chat1.messages, readCount m 1 = 1) ∧
      markRead chat1 1 9 = .ok chat1) :=
  ⟨by decide, c9_markRead_idempotent
    ⟨[1, 2], [⟨1, 1, "hi", 0, [⟨1, 0⟩]⟩, ⟨2, 2, "yo", 1, []⟩], none⟩ 1 5 9
    (by decide) (by decide)⟩

/-- C7: when the requester authored the addressed message, deleting the
only message of a conversation clears lastMessage to absent, and deleting
a message other than the final one (when lastMessage mirrors that final
message) leaves lastMessage unchanged. -/
theorem c7_deleteMessage_lastMessage :
    (∀ (chat : Chat) (m : Msg) (requester : Nat),
      chat.participants.contains requester = true →
      chat.messages = [m] →
      m.sender = requester →
      deleteMessage chat m.id requester =
        .ok { chat with messages := [], lastMessage := none }) ∧
    (∀ (chat : Chat) (pre : List Msg) (lastm dm : Msg) (delId requester : Nat),
      chat.participants.contains requester = true →
      chat.messages = pre ++ [lastm] →
      chat.messages.find? (fun x => x.id == delId) = some dm →
      dm.sender = requester →
      delId ≠ lastm.id →
      chat.lastMessage = some ⟨lastm.content, lastm.sender, lastm.createdAt⟩ →
      ∃ chat', deleteMessage chat delId requester = .ok chat' ∧
        chat'.lastMessage = chat.lastMessage) := by
  constructor
  · intro chat m requester hp hmsgs hsender
    have hpm : requester ∈ chat.participants := by simpa using hp
    simp [deleteMessage, hpm, hmsgs, hsender]
  · intro chat pre lastm dm delId requester hp hmsgs hfind hsender hne hmirror
    have hpm : requester ∈ chat.participants := by simpa using hp
    have hrem : chat.messages.filter (fun x => x.id != delId)
        = pre.filter (fun x => x.id != delId) ++ [lastm] := by
      rw [hmsgs, List.filter_append]
      have : (lastm.id != delId) = true := by
        simp only [bne_iff_ne, ne_eq]
        omega
      simp [this]
    have hlast : (chat.messages.filter (fun x => x.id != delId)).getLast?
        = some lastm := by
      rw [hrem]
      exact List.getLast?_concat _
    refine ⟨{ chat with
        messages := chat.messages.filter (fun x => x.id != delId),
        lastMessage := some ⟨lastm.content, lastm.sender, lastm.createdAt⟩ }, ?_, ?_⟩
    · simp [deleteMessage, hpm, hfind, hsender, hlast]
    · simp [hmirror]

theorem c7_witness :
    ((([1, 2] : List Nat).contains 1 = true) ∧
      deleteMessage ⟨[1, 2], [⟨7, 1, "solo", 3, []⟩], some ⟨"solo", 1, 3⟩⟩ 7 1 =
        .ok ⟨[1, 2], [], none⟩) ∧
    ((7 : Nat) ≠ 8 ∧
      ∃ chat', deleteMessage
        ⟨[1, 2], [⟨7, 1, "a", 3, []⟩, ⟨8, 2, "b", 4, []⟩], some ⟨"b", 2, 4⟩⟩ 7 1
        = .ok chat' ∧
      chat'.lastMessage =
        (⟨[1, 2], [⟨7, 1, "a", 3, []⟩, ⟨8, 2, "b", 4, []⟩],
          some ⟨"b", 2, 4⟩⟩ : Chat).lastMessage) :=
  ⟨⟨by decide, c7_deleteMessage_lastMessage.1
      ⟨[1, 2], [⟨7, 1, "solo", 3, []⟩], some ⟨"solo", 1, 3⟩⟩ ⟨7, 1, "solo", 3, []⟩ 1
      (by decide) rfl rfl⟩,
   ⟨by decide, c7_deleteMessage_lastMessage.2
      ⟨[1, 2], [⟨7, 1, "a", 3, []⟩, ⟨8, 2, "b", 4, []⟩], some ⟨"b", 2, 4⟩⟩
      [⟨7, 1, "a", 3, []⟩] ⟨8, 2, "b", 4, []⟩ ⟨7, 1, "a", 3, []⟩ 7 1
      (by decide) rfl (by decide) rfl (by decide) rfl⟩⟩

/-- A concrete message for the pagination example. -/
def mkMsg (i : Nat) : Msg := ⟨i, 1, "", i, []⟩

/-- A conversation holding 120 messages with increasing timestamps. -/
def chat120 : Chat := ⟨[1, 2], (List.range 120).map mkMsg, none⟩

/-- C5: listMessages pages most-recent-first internally with
skip = (page-1)*pageSize, returns the slice reversed into chronological
ascending order, and hasMore holds iff the total count exceeds
skip + pageSize; for 120 messages and pageSize 50, page 1 yields the 50
newest in chronological order with hasMore, and page 3 the remaining 20
without. -/
theorem c5_pagination (chat : Chat) (requester page limit : Nat)
    (hp : chat.participants.contains requester = true) :
    (∃ msgs hasMore,
      listMessages chat requester page limit = .ok (msgs, hasMore) ∧
      msgs.Pairwise (fun a b : Msg => a.createdAt ≤ b.createdAt) ∧
      (hasMore = true ↔ chat.messages.length > (page - 1) * limit + limit)) ∧
    listMessages chat120 1 1 50 = .ok ((List.range' 70 50).map mkMsg, true) ∧
    listMessages chat120 1 3 50 = .ok ((List.range 20).map mkMsg, false) := by
  have hpm : requester ∈ chat.participants := by simpa using hp
  refine ⟨⟨(((List.insertionSort newerFirst chat.messages).drop
      ((page - 1) * limit)).take limit).reverse,
    decide (chat.messages.length > (page - 1) * limit + limit), ?_, ?_, ?_⟩, ?_, ?_⟩
  · simp [listMessages, hpm]
  · have hs := List.sorted_insertionSort newerFirst chat.messages
    have hsub : List.Sublist (((List.insertionSort newerFirst chat.messages).drop
        ((page - 1) * limit)).take limit) (List.insertionSort newerFirst chat.messages) :=
      (List.take_sublist _ _).trans (List.drop_sublist _ _)
    have hs' := List.Pairwise.sublist hsub hs
    rw [List.pairwise_reverse]
    simpa [newerFirst] using hs'
  · exact decide_eq_true_iff
  · rfl
  · rfl

theorem c5_witness :
    (chat120.participants.contains 1 = true) ∧
    ((∃ msgs hasMore,
      listMessages chat120 1 1 50 = .ok (msgs, hasMore) ∧
      msgs.Pairwise (fun a b : Msg => a.createdAt ≤ b.createdAt) ∧
      (hasMore = true ↔ chat120.messages.length > (1 - 1) * 50 + 50)) ∧
    listMessages chat120 1 1 50 = .ok ((List.range' 70 50).map mkMsg, true) ∧
    listMessages chat120 1 3 50 = .ok ((List.range 20).map mkMsg, false)) :=
  ⟨by decide, c5_pagination chat120 1 1 50 (by decide)⟩

theorem haversineA_self (lat lon : ℝ) : haversineA lat lon lat lon = 0 := by
  unfold haversineA deg2rad
  simp

theorem haversineA_symm (lat1 lon1 lat2 lon2 : ℝ) :
    haversineA lat1 lon1 lat2 lon2 = haversineA lat2 lon2 lat1 lon1 := by
  unfold haversineA deg2rad
  have e1 : (lat1 - lat2) * (Real.pi / 180) / 2
      = -((lat2 - lat1) * (Real.pi / 180) / 2) := by ring
  have e2 : (lon1 - lon2) * (Real.pi / 180) / 2
      = -((lon2 - lon1) * (Real.pi / 180) / 2) := by ring
  rw [e1, e2, Real.sin_neg, Real.sin_neg]
  ring

theorem calculateDistance_self (lat lon : ℝ) :
    calculateDistance lat lon lat lon = 0 := by
  unfold calculateDistance
  rw [haversineA_self]
  simp [atan2]

/-- C8: the haversine helper gives 0 at coincident points, is symmetric in
its two endpoints, and sends (0°,0°)–(0°,90°) to about 10007.5 km (a
quarter great-circle at radius 6371 km). -/
theorem c8_haversine_properties :
    (∀ lat lon : ℝ, calculateDistance lat lon lat lon = 0) ∧
    (∀ lat1 lon1 lat2 lon2 : ℝ,
      calculateDistance lat1 lon1 lat2 lon2 = calculateDistance lat2 lon2 lat1 lon1) ∧
    |calculateDistance 0 0 0 90 - 10007.5| < 0.1 := by
  refine ⟨calculateDistance_self, ?_, ?_⟩
  · intro lat1 lon1 lat2 lon2
    unfold calculateDistance
    rw [haversineA_symm]
  · have hA : haversineA 0 0 0 90 = 1 / 2 := by
      unfold haversineA deg2rad
      rw [show ((90 : ℝ) - 0) * (Real.pi / 180) / 2 = Real.pi / 4 by ring]
      rw [Real.sin_pi_div_four]
      rw [show ((0 : ℝ) - 0) * (Real.pi / 180) / 2 = 0 by ring]
      simp
      rw [div_mul_div_comm, Real.mul_self_sqrt (by norm_num : (0:ℝ) ≤ 2)]
      norm_num
    have hd : calculateDistance 0 0 0 90 = 6371 * (Real.pi / 2) := by
      unfold calculateDistance
      rw [hA]
      have hhalf : Real.sqrt (1 - 1 / 2) = Real.sqrt (1 / 2) := by norm_num
      have hpos : 0 < Real.sqrt (1 / 2) := Real.sqrt_pos.mpr (by norm_num)
      rw [hhalf]
      unfold atan2
      rw [if_pos hpos, div_self (ne_of_gt hpos), Real.arctan_one]
      ring
    rw [hd]
    rw [abs_lt]
    constructor
    · nlinarith [Real.pi_gt_d6]
    · nlinarith [Real.pi_lt_d6]

/-- C3: discovery fails with ProfileIncomplete unless the profile is
complete (the stored flag agreeing with its derivation), and every
returned candidate passes all conjunctive filters: not self, not
previously liked or disliked, same university, verified and
profile-complete, age within the actor's range, and the two-directional
gender/interest gate; at most 10 candidates are returned. -/
theorem c3_candidate_filters (db : List User) (u : User)
    (res : Except Err (List User))
    (hpc : u.profileCompleted = isProfileComplete u)
    (hres : getCandidatesRel db u res) :
    (u.profileCompleted = false → res = .error .profileIncomplete) ∧
    (∀ cs, res = .ok cs →
      u.profileCompleted = true ∧ cs.length ≤ 10 ∧
      ∀ c ∈ cs,
        c.id ≠ u.id ∧
        c.id ∉ u.likedUsers ∧ c.id ∉ u.dislikedUsers ∧
        c.university = u.university ∧
        c.isEmailVerified = true ∧ c.profileCompleted = true ∧
        u.ageMin ≤ c.age ∧ c.age ≤ u.ageMax ∧
        (u.interestedIn ≠ .both → genderMatchesInterest c.gender u.interestedIn = true) ∧
        (interestMatchesGender c.interestedIn u.gender = true ∨ c.interestedIn = .both)) := by
  unfold getCandidatesRel at hres
  by_cases hic : isProfileComplete u = true
  · rw [if_pos hic] at hres
    obtain ⟨filtered, hfil, hresq⟩ := hres
    constructor
    · intro hfalse
      rw [hpc, hic] at hfalse
      cases hfalse
    · intro cs hok
      rw [hresq] at hok
      have hcs : cs = (List.insertionSort moreRecentlyActive filtered).take 10 := by
        cases hok
        rfl
      refine ⟨by rw [hpc, hic], by rw [hcs]; exact List.length_take_le 10 _, ?_⟩
      intro c hc
      have hc1 : c ∈ List.insertionSort moreRecentlyActive filtered := by
        rw [hcs] at hc
        exact List.mem_of_mem_take hc
      have hc2 : c ∈ filtered := (List.mem_insertionSort _).mp hc1
      have hpass := (FilterRel.mem hfil hc2).2
      have hb := hpass.1
      simp only [basePass, Bool.and_eq_true, Bool.or_eq_true, bne_iff_ne, ne_eq,
        Bool.not_eq_true', beq_iff_eq, decide_eq_true_eq,
        List.contains_eq_any_beq] at hb
      obtain ⟨⟨⟨⟨⟨⟨⟨⟨hid, hnotin⟩, huni⟩, hver⟩, hcomp⟩, hage1⟩, hage2⟩, hgen⟩, hint⟩ := hb
      have hnm : ¬ (c.id ∈ u.likedUsers ++ u.dislikedUsers) := by
        intro hmem
        have h2 : ((u.likedUsers ++ u.dislikedUsers).any fun x => c.id == x) = true :=
          List.any_eq_true.mpr ⟨c.id, hmem, by simp⟩
        rw [hnotin] at h2
        cases h2
      refine ⟨hid, fun hmem => hnm (List.mem_append.mpr (.inl hmem)),
        fun hmem => hnm (List.mem_append.mpr (.inr hmem)),
        huni, hver, hcomp, hage1, hage2, ?_, hint⟩
      intro hni
      revert hgen
      split
      · rename_i hcond
        exact absurd hcond hni
      · exact fun h => h
  · rw [if_neg hic] at hres
    constructor
    · intro _
      exact hres
    · intro cs hok
      rw [hres] at hok
      cases hok

/-- A concrete candidate compatible with `mkUser 1`. -/
def femUser (i : Nat) : User :=
  { mkUser i with gender := .female, interestedIn := .male }

theorem c3_witness_rel :
    getCandidatesRel [mkUser 1, femUser 2] (mkUser 1) (.ok [femUser 2]) := by
  unfold getCandidatesRel
  rw [if_pos (show isProfileComplete (mkUser 1) = true by decide)]
  refine ⟨[femUser 2], ?_, rfl⟩
  refine FilterRel.drop ?_ (FilterRel.keep ?_ FilterRel.nil)
  · intro hpass
    have hb := hpass.1
    revert hb
    decide
  · exact ⟨by decide, fun hg => absurd hg (by decide)⟩

theorem c3_witness :
    (mkUser 1).profileCompleted = isProfileComplete (mkUser 1) ∧
    (((mkUser 1).profileCompleted = false →
      (.ok [femUser 2] : Except Err (List User)) = .error .profileIncomplete) ∧
    (∀ cs, (.ok [femUser 2] : Except Err (List User)) = .ok cs →
      (mkUser 1).profileCompleted = true ∧ cs.length ≤ 10 ∧
      ∀ c ∈ cs,
        c.id ≠ (mkUser 1).id ∧
        c.id ∉ (mkUser 1).likedUsers ∧ c.id ∉ (mkUser 1).dislikedUsers ∧
        c.university = (mkUser 1).university ∧
        c.isEmailVerified = true ∧ c.profileCompleted = true ∧
        (mkUser 1).ageMin ≤ c.age ∧ c.age ≤ (mkUser 1).ageMax ∧
        ((mkUser 1).interestedIn ≠ .both →
          genderMatchesInterest c.gender (mkUser 1).interestedIn = true) ∧
        (interestMatchesGender c.interestedIn (mkUser 1).gender = true ∨
          c.interestedIn = .both))) :=
  ⟨by decide, c3_candidate_filters [mkUser 1, femUser 2] (mkUser 1) (.ok [femUser 2])
    (by decide) c3_witness_rel⟩

theorem arctan_le_self (x : ℝ) (hx : 0 ≤ x) : Real.arctan x ≤ x := by
  rcases eq_or_lt_of_le hx with h | h
  · rw [← h, Real.arctan_zero]
  · have h1 : 0 < Real.arctan x := by
      have h0 := Real.arctan_strictMono h
      rwa [Real.arctan_zero] at h0
    have h2 : Real.arctan x < Real.pi / 2 := Real.arctan_lt_pi_div_two x
    have h3 := Real.lt_tan h1 h2
    rw [Real.tan_arctan] at h3
    exact h3.le

theorem calculateDistance_tenth_le :
    calculateDistance (1 / 10) (1 / 10) 0 0 ≤ 50 := by
  have hpi_pos := Real.pi_pos
  have hpi_lt : Real.pi < 3.15 := by nlinarith [Real.pi_lt_d6]
  have hA_eq : haversineA (1 / 10) (1 / 10) 0 0
      = Real.sin (Real.pi / 3600) * Real.sin (Real.pi / 3600)
        * (1 + Real.cos (1 / 10 * (Real.pi / 180))) := by
    unfold haversineA deg2rad
    rw [show ((0 : ℝ) - 1 / 10) * (Real.pi / 180) / 2 = -(Real.pi / 3600) by ring]
    rw [show (0 : ℝ) * (Real.pi / 180) = 0 by ring]
    rw [Real.sin_neg, Real.cos_zero]
    ring
  have hs_nonneg : 0 ≤ Real.sin (Real.pi / 3600) :=
    Real.sin_nonneg_of_nonneg_of_le_pi (by positivity) (by nlinarith)
  have hs_le : Real.sin (Real.pi / 3600) ≤ Real.pi / 3600 :=
    (Real.sin_lt (by positivity)).le
  have hcos_le : Real.cos (1 / 10 * (Real.pi / 180)) ≤ 1 := Real.cos_le_one _
  have hcos_ge : -1 ≤ Real.cos (1 / 10 * (Real.pi / 180)) := Real.neg_one_le_cos _
  have hss : Real.sin (Real.pi / 3600) * Real.sin (Real.pi / 3600)
      ≤ (Real.pi / 3600) * (Real.pi / 3600) :=
    mul_le_mul hs_le hs_le hs_nonneg (by positivity)
  have hA_nonneg : 0 ≤ haversineA (1 / 10) (1 / 10) 0 0 := by
    rw [hA_eq]
    nlinarith [mul_self_nonneg (Real.sin (Real.pi / 3600))]
  have hA_le : haversineA (1 / 10) (1 / 10) 0 0 ≤ (169 : ℝ) / 100000000 := by
    rw [hA_eq]
    nlinarith [mul_self_nonneg (Real.sin (Real.pi / 3600))]
  have hsqrtA_le : Real.sqrt (haversineA (1 / 10) (1 / 10) 0 0) ≤ 13 / 10000 := by
    have h1 : haversineA (1 / 10) (1 / 10) 0 0 ≤ ((13 : ℝ) / 10000) ^ 2 := by
      nlinarith [hA_le]
    calc Real.sqrt (haversineA (1 / 10) (1 / 10) 0 0)
        ≤ Real.sqrt (((13 : ℝ) / 10000) ^ 2) := Real.sqrt_le_sqrt h1
      _ = 13 / 10000 := Real.sqrt_sq (by norm_num)
  have hsqrt1mA_ge : (99 : ℝ) / 100
      ≤ Real.sqrt (1 - haversineA (1 / 10) (1 / 10) 0 0) := by
    rw [show ((99 : ℝ) / 100) = Real.sqrt (((99 : ℝ) / 100) ^ 2) from
      (Real.sqrt_sq (by norm_num)).symm]
    apply Real.sqrt_le_sqrt
    nlinarith [hA_le]
  have hsqrt_pos : 0 < Real.sqrt (1 - haversineA (1 / 10) (1 / 10) 0 0) :=
    lt_of_lt_of_le (by norm_num) hsqrt1mA_ge
  unfold calculateDistance atan2
  rw [if_pos hsqrt_pos]
  have hdiv_nonneg : 0 ≤ Real.sqrt (haversineA (1 / 10) (1 / 10) 0 0)
      / Real.sqrt (1 - haversineA (1 / 10) (1 / 10) 0 0) :=
    div_nonneg (Real.sqrt_nonneg _) (Real.sqrt_nonneg _)
  have harctan := arctan_le_self _ hdiv_nonneg
  have hdiv_le : Real.sqrt (haversineA (1 / 10) (1 / 10) 0 0)
      / Real.sqrt (1 - haversineA (1 / 10) (1 / 10) 0 0)
      ≤ (13 / 10000) / ((99 : ℝ) / 100) :=
    div_le_div₀ (by norm_num) hsqrtA_le (by norm_num) hsqrt1mA_ge
  nlinarith [harctan, hdiv_le]

/-- A user with a real (non-sentinel) location at (lat, lon) = (0.1, 0.1). -/
def uGeo : User := { mkUser 1 with lon := 1 / 10, lat := 1 / 10 }

/-- A user at (lat, lon) = (0.1, 0): a real location distinct from the
(0,0) sentinel, but with one coordinate zero, so the route's geo guard
`coordinates[0] !== 0 && coordinates[1] !== 0` does not fire. -/
def uAxis : User := { mkUser 1 with lat := 1 / 10 }

/-- A compatible candidate near the south pole (lat = -89.9, lon = 0),
one quarter great-circle away from `uAxis`. -/
def tFar : User := { femUser 2 with lat := -899 / 10 }

/-- C4 (amended): geo filtering activates only when BOTH stored
coordinates of the acting user are nonzero (the code's guard), not merely
when the location differs from the (0,0) sentinel; when it is active,
every candidate returned by discovery lies within maxDistance kilometers
(unrounded kilometers × 1000 against maxDistance × 1000). -/
theorem c4_geo_restriction (db : List User) (u : User)
    (res : Except Err (List User))
    (hres : getCandidatesRel db u res) (hgeo : geoActive u = true) :
    ∀ cs, res = .ok cs → ∀ c ∈ cs,
      distKm u c * 1000 ≤ (u.maxDistance : ℝ) * 1000 := by
  unfold getCandidatesRel at hres
  by_cases hic : isProfileComplete u = true
  · rw [if_pos hic] at hres
    obtain ⟨filtered, hfil, hresq⟩ := hres
    intro cs hok c hc
    rw [hresq] at hok
    have hcs : cs = (List.insertionSort moreRecentlyActive filtered).take 10 := by
      cases hok
      rfl
    rw [hcs] at hc
    have hc1 : c ∈ List.insertionSort moreRecentlyActive filtered :=
      List.mem_of_mem_take hc
    have hc2 : c ∈ filtered := (List.mem_insertionSort _).mp hc1
    exact (FilterRel.mem hfil hc2).2.2 hgeo
  · rw [if_neg hic] at hres
    intro cs hok
    rw [hres] at hok
    cases hok

theorem calculateDistance_of_A_half (lat1 lon1 lat2 lon2 : ℝ)
    (hA : haversineA lat1 lon1 lat2 lon2 = 1 / 2) :
    calculateDistance lat1 lon1 lat2 lon2 = 6371 * (Real.pi / 2) := by
  unfold calculateDistance
  rw [hA]
  have hhalf : Real.sqrt (1 - 1 / 2) = Real.sqrt (1 / 2) := by norm_num
  have hpos : 0 < Real.sqrt (1 / 2) := Real.sqrt_pos.mpr (by norm_num)
  rw [hhalf]
  unfold atan2
  rw [if_pos hpos, div_self (ne_of_gt hpos), Real.arctan_one]
  ring

theorem haversineA_uAxis_tFar : haversineA (1 / 10) 0 (-899 / 10) 0 = 1 / 2 := by
  unfold haversineA deg2rad
  rw [show ((-899 : ℝ) / 10 - 1 / 10) * (Real.pi / 180) / 2 = -(Real.pi / 4) by ring]
  rw [show ((0 : ℝ) - 0) * (Real.pi / 180) / 2 = 0 by ring]
  rw [Real.sin_neg, Real.sin_pi_div_four, Real.sin_zero]
  rw [show -(Real.sqrt 2 / 2) * -(Real.sqrt 2 / 2)
      = Real.sqrt 2 * Real.sqrt 2 / 4 by ring]
  rw [Real.mul_self_sqrt (by norm_num : (0 : ℝ) ≤ 2)]
  ring

/-- The original claim fails in both directions.  First, its exclusion
clause: with the acting user at the real location (0.1, 0.1) and
maxDistance 50 km, a candidate whose stored location is the (0,0) "unset"
sentinel is *returned* by discovery — the geo query treats (0,0) as an
ordinary point about 15.7 km away, it does not exclude location-less
targets.  Second, its trigger: for an acting user at (lat 0.1, lon 0) — a
real location distinct from the (0,0) sentinel, but with one coordinate
zero — the route skips the geo filter entirely, and a candidate a quarter
great-circle (≈ 10007 km, far beyond maxDistance 50 km) away is still
returned. -/
theorem c4_counterexample :
    (geoActive uGeo = true ∧
     (femUser 2).lon = 0 ∧ (femUser 2).lat = 0 ∧
     getCandidatesRel [uGeo, femUser 2] uGeo (.ok [femUser 2])) ∧
    (¬ (uAxis.lon = 0 ∧ uAxis.lat = 0) ∧
     geoActive uAxis = false ∧
     getCandidatesRel [uAxis, tFar] uAxis (.ok [tFar]) ∧
     distKm uAxis tFar * 1000 > (uAxis.maxDistance : ℝ) * 1000) := by
  constructor
  · refine ⟨by norm_num [geoActive, uGeo, mkUser], by decide, by decide, ?_⟩
    unfold getCandidatesRel
    rw [if_pos (show isProfileComplete uGeo = true by decide)]
    refine ⟨[femUser 2], ?_, rfl⟩
    refine FilterRel.drop ?_ (FilterRel.keep ?_ FilterRel.nil)
    · intro hpass
      have hb := hpass.1
      revert hb
      decide
    · refine ⟨by decide, fun _ => ?_⟩
      have heq : distKm uGeo (femUser 2) = calculateDistance (1 / 10) (1 / 10) 0 0 := by
        simp [distKm, uGeo, femUser, mkUser]
      have hmax : ((uGeo.maxDistance : ℚ) : ℝ) = 50 := by
        simp [uGeo, mkUser]
      rw [heq, hmax]
      nlinarith [calculateDistance_tenth_le]
  · refine ⟨?_, ?_, ?_, ?_⟩
    · intro h
      have h2 := h.2
      norm_num [uAxis, mkUser] at h2
    · norm_num [geoActive, uAxis, mkUser]
    · unfold getCandidatesRel
      rw [if_pos (show isProfileComplete uAxis = true by decide)]
      refine ⟨[tFar], ?_, rfl⟩
      refine FilterRel.drop ?_ (FilterRel.keep ?_ FilterRel.nil)
      · intro hpass
        have hb := hpass.1
        revert hb
        decide
      · exact ⟨by decide,
          fun hg => absurd hg (by norm_num [geoActive, uAxis, mkUser])⟩
    · have heqf : distKm uAxis tFar = calculateDistance (1 / 10) 0 (-899 / 10) 0 := by
        simp [distKm, uAxis, tFar, femUser, mkUser]
      have hmaxf : ((uAxis.maxDistance : ℚ) : ℝ) = 50 := by
        simp [uAxis, mkUser]
      rw [heqf, hmaxf, calculateDistance_of_A_half _ _ _ _ haversineA_uAxis_tFar]
      nlinarith [Real.pi_gt_three]

theorem c4_witness :
    (uGeo.lon ≠ 0 ∧ uGeo.lat ≠ 0) ∧
    (∀ cs, (.ok [] : Except Err (List User)) = .ok cs → ∀ c ∈ cs,
      distKm uGeo c * 1000 ≤ (uGeo.maxDistance : ℝ) * 1000) :=
  have hres0 : getCandidatesRel [uGeo] uGeo (.ok []) := by
    unfold getCandidatesRel
    rw [if_pos (show isProfileComplete uGeo = true by decide)]
    refine ⟨[], FilterRel.drop ?_ FilterRel.nil, rfl⟩
    intro hpass
    have hb := hpass.1
    revert hb
    decide
  ⟨by constructor <;> norm_num [uGeo, mkUser],
   c4_geo_restriction [uGeo] uGeo (.ok []) hres0
    (by norm_num [geoActive, uGeo, mkUser])⟩

end DatingApp
